import Mathlib

/-!
Verification of the transcription relay in `src/app/api/transcribe/route.ts`
(the `POST` handler).

The handler is embedded as a pure Lean function.  Effects of the JavaScript
code are made explicit parameters and outputs:

* `process.env.DEEPGRAM_API_KEY` becomes an `Option String` argument
  (JavaScript treats an empty string as falsy, so the configuration check
  `if (!deepgramApiKey)` also fires on `some ""`);
* `req.formData()` and the `audio` field lookup become an
  `Except JsError (Option AudioFile)` argument (the `Except.error` case models
  the promise rejecting, e.g. an unparseable multipart body);
* the outbound `fetch` becomes a `FetchOutcome` argument: either a provider
  response (status and body text) or a thrown network error;
* `JSON.parse` / `Response.json()` become a `String → Except JsError JSValue`
  oracle argument (`JSON.parse` either returns a value or throws);
* `console.log` / `console.error` / `console.warn` lines are collected in a
  `logs : List String` output, and outbound provider calls (with their
  Authorization header and raw body) in an `outbound : List OutboundRequest`
  output.

JavaScript values appearing in JSON and in dynamic property access are
modelled by the inductive `JSValue`; member access on `null`/`undefined`
throws a `TypeError`, member access on other primitives yields `undefined`,
and optional chaining (`?.`) short-circuits on `null`/`undefined`, exactly
as in JavaScript.
-/

/-- A thrown JavaScript value as observed by the `catch` blocks of the
handler: the `message` property (`none` models an absent `message`), and the
result of `JSON.stringify` applied to it. -/
structure JsError where
  message : Option String
  stringified : String
deriving DecidableEq, Repr

/-- JavaScript values reachable through JSON and dynamic property access. -/
inductive JSValue where
  | undefined
  | null
  | bool (b : Bool)
  | num (n : Int)
  | str (s : String)
  | arr (xs : List JSValue)
  | obj (fields : List (String × JSValue))
deriving Repr

/-- JavaScript truthiness (`NaN` is not representable in the `Int` model). -/
def truthy : JSValue → Bool
  | .undefined => false
  | .null => false
  | .bool b => b
  | .num n => n != 0
  | .str s => !s.isEmpty
  | .arr _ => true
  | .obj _ => true

/-- Model of the JavaScript builtin `String.prototype.startsWith`:
a character-level prefix test. -/
def strStartsWith (s pre : String) : Bool :=
  pre.toList.isPrefixOf s.toList

/-- First-match lookup in an object literal, `undefined` when absent. -/
def lookupField : List (String × JSValue) → String → JSValue
  | [], _ => .undefined
  | (k, v) :: rest, key => if k = key then v else lookupField rest key

/-- Property access `v.key` on a value already known not to be
`null`/`undefined`: objects look the key up, other values have no such own
property and yield `undefined`. -/
def getField : JSValue → String → JSValue
  | .obj fields, key => lookupField fields key
  | _, _ => .undefined

/-- The `TypeError` thrown by property access on `null`/`undefined`. -/
def typeErrorRead (key : String) : JsError :=
  { message := some ("Cannot read properties of null or undefined (reading " ++ key ++ ")"),
    stringified := "TypeError" }

/-- Plain (non-optional) property access `v.key`: throws a `TypeError` on
`null`/`undefined`, otherwise reads the property. -/
def getFieldE : JSValue → String → Except JsError JSValue
  | .null, key => .error (typeErrorRead key)
  | .undefined, key => .error (typeErrorRead key)
  | v, key => .ok (getField v key)

/-- Index access `v[n]` on a value already known not to be `null`/`undefined`:
arrays index positionally, objects look up the decimal string key, strings
yield one-character strings, other values yield `undefined`. -/
def getIdx : JSValue → Nat → JSValue
  | .arr xs, n =>
    match xs.get? n with
    | some x => x
    | none => .undefined
  | .obj fields, n => lookupField fields (toString n)
  | .str s, n =>
    match s.toList.get? n with
    | some c => .str c.toString
    | none => .undefined
  | _, _ => .undefined

/-- Optional-chained property access `v?.key`: `undefined` on
`null`/`undefined` (short circuit), plain access otherwise. -/
def optField (v : JSValue) (key : String) : JSValue :=
  match v with
  | .null => .undefined
  | .undefined => .undefined
  | _ => getField v key

/-- Optional-chained index access `v?.[n]`. -/
def optIdx (v : JSValue) (n : Nat) : JSValue :=
  match v with
  | .null => .undefined
  | .undefined => .undefined
  | _ => getIdx v n

/-- `deepgramData.results?.channels?.[0]?.alternatives?.[0]?.transcript`
from line 74 of the route: the first access is plain (it throws when the
parsed body is `null`/`undefined`), every later step is optional-chained. -/
def extractTranscript (data : JSValue) : Except JsError JSValue := do
  let results ← getFieldE data "results"
  pure (optField (optIdx (optField (optIdx (optField results "channels") 0)
    "alternatives") 0) "transcript")

/-- The audio object obtained from `formData.get("audio")`: its `name`,
declared MIME `type`, and the bytes its `arrayBuffer()` resolves to
(`size = bytes.length`). -/
structure AudioFile where
  name : String
  type : String
  bytes : List Nat
deriving DecidableEq, Repr

/-- The incoming request, reduced to what the handler reads from it:
the result of `req.formData()` followed by `formData.get("audio")`
(`Except.error` = the multipart body could not be parsed;
`Except.ok none` = no `audio` field). -/
structure TranscribeRequest where
  formData : Except JsError (Option AudioFile)
deriving Repr

/-- Outcome of the outbound `fetch` to the provider: a response with its
status code and body text, or a thrown network error. -/
inductive FetchOutcome where
  | ok (status : Nat) (bodyText : String)
  | err (e : JsError)
deriving Repr

/-- The value returned to the caller: the JSON body passed to
`NextResponse.json` together with the HTTP status code (200 when the code
passes no explicit status). -/
structure RelayResponse where
  status : Nat
  body : JSValue
deriving Repr

/-- `NextResponse.json({ error: msg }, { status })`. -/
def errorResponse (msg : JSValue) (status : Nat) : RelayResponse :=
  ⟨status, .obj [("error", msg)]⟩

/-- The outbound call the handler issues to the provider. -/
structure OutboundRequest where
  url : String
  authorization : String
  contentType : String
  body : List Nat
deriving DecidableEq, Repr

/-- The fixed provider endpoint with its static query parameters. -/
def deepgramUrl : String :=
  "https://api.deepgram.com/v1/listen?model=nova-2&smart_format=true&punctuate=true"

/-- The outbound request built at lines 45-55 of the route: Authorization
header with the `Token ` prefix, pass-through Content-Type, raw audio body. -/
def outboundFor (key : String) (f : AudioFile) : OutboundRequest :=
  { url := deepgramUrl,
    authorization := "Token " ++ key,
    contentType := f.type,
    body := f.bytes }

/-- The error message returned when the credential is missing. -/
def missingKeyMessage : String :=
  "Deepgram API Key not configured. Please set DEEPGRAM_API_KEY environment variable."

/-- The `console.log` lines emitted before the outbound call
(lines 33-42 of the route); the credential is masked in the headers line. -/
def requestLogs (f : AudioFile) : List String :=
  [ "Received audio file: " ++ f.name ++ " " ++ f.type ++ " "
      ++ toString f.bytes.length ++ " bytes",
    "Sending request to Deepgram: " ++ deepgramUrl,
    "Headers: Authorization: Token [API Key Masked], Content-Type: " ++ f.type,
    "Body size: " ++ toString f.bytes.length ++ " bytes" ]

/-- The non-success branch of lines 57-68: parse the error text; on success
read `errorJson.error || errorJson.message || "Deepgram API error"` (property
access on a parsed `null`/`undefined` throws into the inner `catch`); on any
failure inside the inner `try`, embed the raw text. -/
def upstreamErrorResponse (status : Nat) (bodyText : String)
    (parsed : Except JsError JSValue) : RelayResponse :=
  match parsed with
  | .error _ => errorResponse (.str ("Deepgram API error: " ++ bodyText)) status
  | .ok errorJson =>
    match getFieldE errorJson "error" with
    | .error _ => errorResponse (.str ("Deepgram API error: " ++ bodyText)) status
    | .ok ev =>
      if truthy ev then errorResponse ev status
      else
        let mv := getField errorJson "message"
        if truthy mv then errorResponse mv status
        else errorResponse (.str "Deepgram API error") status

/-- The message built by the top-level `catch` (lines 85-93): a truthy
`error.message` gives the `Transcription failed:` form, otherwise the error
is stringified. -/
def catchMessage (e : JsError) : String :=
  match e.message with
  | some m =>
    if m.isEmpty then "An unknown error occurred: " ++ e.stringified
    else "Transcription failed: " ++ m
  | none => "An unknown error occurred: " ++ e.stringified

/-- The structured 500 response produced by the top-level `catch`. -/
def catchResponse (e : JsError) : RelayResponse :=
  errorResponse (.str (catchMessage e)) 500

/-- The `console.error` line of the top-level `catch`. -/
def catchLog (e : JsError) : String :=
  "Server-side transcription error: " ++ e.stringified

/-- Was the configuration check passed?  `if (!deepgramApiKey)` fails the
request when the variable is unset or empty (both are falsy). -/
def credentialConfigured : Option String → Bool
  | none => false
  | some k => !k.isEmpty

/-- The body of the `try` block of the handler (lines 4-81): either a thrown
error or a response, together with the logs emitted and the outbound calls
issued up to that point. -/
def postTry (env : Option String) (req : TranscribeRequest)
    (fetched : FetchOutcome) (parseJson : String → Except JsError JSValue) :
    Except JsError RelayResponse × List String × List OutboundRequest :=
  match env with
  | none =>
    (.ok (errorResponse (.str missingKeyMessage) 500),
     ["Server Error: DEEPGRAM_API_KEY environment variable not set."], [])
  | some key =>
    if key.isEmpty then
      (.ok (errorResponse (.str missingKeyMessage) 500),
       ["Server Error: DEEPGRAM_API_KEY environment variable not set."], [])
    else
      match req.formData with
      | .error e => (.error e, [], [])
      | .ok none =>
        (.ok (errorResponse (.str "No audio file provided.") 400),
         ["Server Error: No audio file provided in request."], [])
      | .ok (some f) =>
        if !(strStartsWith f.type "audio/") then
          (.ok (errorResponse
              (.str "Invalid file type. Only audio files are supported.") 400),
           ["Server Error: Invalid file type provided: " ++ f.type], [])
        else
          match fetched with
          | .err e => (.error e, requestLogs f, [outboundFor key f])
          | .ok status bodyText =>
            if 200 ≤ status ∧ status < 300 then
              match parseJson bodyText with
              | .error e => (.error e, requestLogs f, [outboundFor key f])
              | .ok data =>
                match extractTranscript data with
                | .error e => (.error e, requestLogs f, [outboundFor key f])
                | .ok tv =>
                  let transcription := if truthy tv then tv else .str ""
                  if !(truthy transcription) then
                    (.ok (errorResponse
                        (.str "No transcript could be generated from the audio.") 404),
                     requestLogs f ++ ["Deepgram returned no transcription text."],
                     [outboundFor key f])
                  else
                    (.ok ⟨200, .obj [("transcript", transcription)]⟩,
                     requestLogs f, [outboundFor key f])
            else
              (.ok (upstreamErrorResponse status bodyText (parseJson bodyText)),
               requestLogs f
                 ++ ["Deepgram API returned an error: " ++ toString status
                       ++ " " ++ bodyText],
               [outboundFor key f])

/-- Everything the handler produces on one invocation. -/
structure HandlerResult where
  response : RelayResponse
  logs : List String
  outbound : List OutboundRequest
deriving Repr

/-- The full `POST` handler: the `try` body wrapped in the top-level `catch`
of lines 82-97. -/
def post (env : Option String) (req : TranscribeRequest)
    (fetched : FetchOutcome) (parseJson : String → Except JsError JSValue) :
    HandlerResult :=
  match postTry env req fetched parseJson with
  | (.ok r, logs, out) => ⟨r, logs, out⟩
  | (.error e, logs, out) => ⟨catchResponse e, logs ++ [catchLog e], out⟩

/-! ### Shared fixtures and small lemmas -/

/-- The provider success body shape named by the spec:
`results.channels[0].alternatives[0].transcript = t`. -/
def singleTranscriptBody (t : String) : JSValue :=
  .obj [("results", .obj [("channels", .arr [.obj [("alternatives",
    .arr [.obj [("transcript", .str t)]])]])])]

/-- A `JSON.parse` oracle that returns the given value on every input. -/
def constParse (v : JSValue) : String → Except JsError JSValue :=
  fun _ => .ok v

/-- A `JSON.parse` oracle on which every input fails to parse. -/
def failParse : String → Except JsError JSValue :=
  fun _ => .error ⟨some "Unexpected token", "SyntaxError"⟩

/-- A well-formed audio submission used to instantiate theorems. -/
def sampleFile : AudioFile :=
  ⟨"recording.webm", "audio/webm", [1, 2, 3]⟩

/-- A request carrying `sampleFile` in its `audio` field. -/
def sampleRequest : TranscribeRequest :=
  ⟨.ok (some sampleFile)⟩

theorem isEmpty_false_of_ne {s : String} (h : s ≠ "") : s.isEmpty = false := by
  rcases hs : s.isEmpty with _ | _
  · rfl
  · exact absurd ((String.isEmpty_iff s).mp hs) h

theorem truthy_str_empty : truthy (.str "") = false := rfl

theorem extractTranscript_singleTranscriptBody (t : String) :
    extractTranscript (singleTranscriptBody t) = .ok (.str t) := by
  simp [extractTranscript, singleTranscriptBody, getFieldE, getField, lookupField,
    optField, optIdx, getIdx]

/-! ### Claims -/

/-- C1: for every provider success response whose JSON body has the shape
`results.channels[0].alternatives[0].transcript = t` with `t` a non-empty
string, the handler returns `{transcript: t}` with status 200. -/
theorem transcript_success (key : String) (hkey : key ≠ "") (f : AudioFile)
    (hf : strStartsWith f.type "audio/" = true) (status : Nat) (bodyText t : String)
    (hst : 200 ≤ status ∧ status < 300)
    (parseJson : String → Except JsError JSValue)
    (hp : parseJson bodyText = .ok (singleTranscriptBody t)) (ht : t ≠ "") :
    (post (some key) ⟨.ok (some f)⟩ (.ok status bodyText) parseJson).response
      = ⟨200, .obj [("transcript", .str t)]⟩ := by
  simp [post, postTry, isEmpty_false_of_ne hkey, hf, hst, hp,
    extractTranscript_singleTranscriptBody, truthy, isEmpty_false_of_ne ht]

/-- Witness for C1 at a concrete input. -/
theorem transcript_success_witness :
    (post (some "key") sampleRequest (.ok 200 "body")
        (constParse (singleTranscriptBody "hello world"))).response
      = ⟨200, .obj [("transcript", .str "hello world")]⟩ :=
  transcript_success "key" (by decide) sampleFile (by decide) 200 "body"
    "hello world" (by decide) (constParse (singleTranscriptBody "hello world"))
    rfl (by decide)

/-- C3: for every provider success response whose extracted transcript value
is falsy (empty or absent), the handler returns status 404 with the message
that no transcript could be generated — a response distinct from the generic
500 failure. -/
theorem empty_transcript_not_found (key : String) (hkey : key ≠ "")
    (f : AudioFile) (hf : strStartsWith f.type "audio/" = true)
    (status : Nat) (bodyText : String) (hst : 200 ≤ status ∧ status < 300)
    (parseJson : String → Except JsError JSValue) (data tv : JSValue)
    (hp : parseJson bodyText = .ok data)
    (hex : extractTranscript data = .ok tv) (htv : truthy tv = false) :
    (post (some key) ⟨.ok (some f)⟩ (.ok status bodyText) parseJson).response
      = ⟨404, .obj [("error",
          .str "No transcript could be generated from the audio.")]⟩ := by
  simp [post, postTry, isEmpty_false_of_ne hkey, hf, hst, hp, hex, htv,
    truthy_str_empty, errorResponse]

/-- Witness for C3: a provider body whose transcript is the empty string. -/
theorem empty_transcript_not_found_witness :
    (post (some "key") sampleRequest (.ok 200 "body")
        (constParse (singleTranscriptBody ""))).response
      = ⟨404, .obj [("error",
          .str "No transcript could be generated from the audio.")]⟩ :=
  empty_transcript_not_found "key" (by decide) sampleFile (by decide) 200
    "body" (by decide) (constParse (singleTranscriptBody ""))
    (singleTranscriptBody "") (.str "") rfl
    (extractTranscript_singleTranscriptBody "") rfl

/-- C4: when no credential is configured (variable unset or empty), the
handler answers 500 with the misconfiguration message and issues no outbound
call. -/
theorem missing_credential_no_outbound (env : Option String)
    (req : TranscribeRequest) (fetched : FetchOutcome)
    (parseJson : String → Except JsError JSValue)
    (h : credentialConfigured env = false) :
    (post env req fetched parseJson).response
        = ⟨500, .obj [("error", .str missingKeyMessage)]⟩ ∧
      (post env req fetched parseJson).outbound = [] := by
  cases env with
  | none => simp [post, postTry, errorResponse]
  | some k =>
    have hk : k.isEmpty = true := by simpa [credentialConfigured] using h
    simp [post, postTry, hk, errorResponse]

/-- Witness for C4 with the variable unset. -/
theorem missing_credential_no_outbound_witness :
    (post none sampleRequest (.ok 200 "x") failParse).response
        = ⟨500, .obj [("error", .str missingKeyMessage)]⟩ ∧
      (post none sampleRequest (.ok 200 "x") failParse).outbound = [] :=
  missing_credential_no_outbound none sampleRequest (.ok 200 "x") failParse rfl

/-- C5: a request whose form data carries no `audio` field is answered 400
with the message `No audio file provided.`, and no outbound call is made. -/
theorem missing_audio_bad_request (env : Option String)
    (hc : credentialConfigured env = true) (fetched : FetchOutcome)
    (parseJson : String → Except JsError JSValue) :
    (post env ⟨.ok none⟩ fetched parseJson).response
        = ⟨400, .obj [("error", .str "No audio file provided.")]⟩ ∧
      (post env ⟨.ok none⟩ fetched parseJson).outbound = [] := by
  cases env with
  | none => simp [credentialConfigured] at hc
  | some k =>
    have hk : k.isEmpty = false := by simpa [credentialConfigured] using hc
    simp [post, postTry, hk, errorResponse]

/-- Witness for C5. -/
theorem missing_audio_bad_request_witness :
    (post (some "key") ⟨.ok none⟩ (.ok 200 "x") failParse).response
        = ⟨400, .obj [("error", .str "No audio file provided.")]⟩ ∧
      (post (some "key") ⟨.ok none⟩ (.ok 200 "x") failParse).outbound = [] :=
  missing_audio_bad_request (some "key") rfl (.ok 200 "x") failParse

/-- C6: an audio submission whose declared MIME type does not start with
`audio/` is answered 400 citing an invalid file type, whatever its payload
bytes, and no outbound call is made. -/
theorem invalid_type_bad_request (env : Option String)
    (hc : credentialConfigured env = true) (f : AudioFile)
    (hf : strStartsWith f.type "audio/" = false) (fetched : FetchOutcome)
    (parseJson : String → Except JsError JSValue) :
    (post env ⟨.ok (some f)⟩ fetched parseJson).response
        = ⟨400, .obj [("error",
            .str "Invalid file type. Only audio files are supported.")]⟩ ∧
      (post env ⟨.ok (some f)⟩ fetched parseJson).outbound = [] := by
  cases env with
  | none => simp [credentialConfigured] at hc
  | some k =>
    have hk : k.isEmpty = false := by simpa [credentialConfigured] using hc
    simp [post, postTry, hk, hf, errorResponse]

/-- Witness for C6: a `video/mp4` submission with a non-empty payload. -/
theorem invalid_type_bad_request_witness :
    (post (some "key") ⟨.ok (some ⟨"clip.mp4", "video/mp4", [9]⟩)⟩
        (.ok 200 "x") failParse).response
        = ⟨400, .obj [("error",
            .str "Invalid file type. Only audio files are supported.")]⟩ ∧
      (post (some "key") ⟨.ok (some ⟨"clip.mp4", "video/mp4", [9]⟩)⟩
        (.ok 200 "x") failParse).outbound = [] :=
  invalid_type_bad_request (some "key") rfl ⟨"clip.mp4", "video/mp4", [9]⟩
    (by decide) (.ok 200 "x") failParse

theorem upstreamErrorResponse_status (status : Nat) (bodyText : String)
    (p : Except JsError JSValue) :
    (upstreamErrorResponse status bodyText p).status = status := by
  rcases p with e | v
  · rfl
  · cases v <;> simp only [upstreamErrorResponse, getFieldE, getField] <;>
      first
        | rfl
        | (split_ifs <;> rfl)

/-- C2 (amended): on a provider non-success status the handler always echoes
the provider's status code; when the body text fails to parse as JSON, or
parses to `null`/`undefined` (so that reading `.error` throws into the inner
catch), the returned message embeds the raw body text verbatim; when it
parses to any other value the error body follows the
`error`, then `message`, then generic-string precedence. -/
theorem upstream_error_propagation (key : String) (hkey : key ≠ "")
    (f : AudioFile) (hf : strStartsWith f.type "audio/" = true)
    (status : Nat) (bodyText : String)
    (parseJson : String → Except JsError JSValue)
    (hst : ¬(200 ≤ status ∧ status < 300)) :
    (post (some key) ⟨.ok (some f)⟩ (.ok status bodyText) parseJson).response.status
        = status ∧
      (∀ e, parseJson bodyText = .error e →
        (post (some key) ⟨.ok (some f)⟩ (.ok status bodyText) parseJson).response.body
          = .obj [("error", .str ("Deepgram API error: " ++ bodyText))]) ∧
      (parseJson bodyText = .ok .null ∨ parseJson bodyText = .ok .undefined →
        (post (some key) ⟨.ok (some f)⟩ (.ok status bodyText) parseJson).response.body
          = .obj [("error", .str ("Deepgram API error: " ++ bodyText))]) ∧
      (∀ v, parseJson bodyText = .ok v → v ≠ .null → v ≠ .undefined →
        (post (some key) ⟨.ok (some f)⟩ (.ok status bodyText) parseJson).response.body
          = (if truthy (getField v "error") then .obj [("error", getField v "error")]
             else if truthy (getField v "message") then
               .obj [("error", getField v "message")]
             else .obj [("error", .str "Deepgram API error")])) := by
  have hpost :
      (post (some key) ⟨.ok (some f)⟩ (.ok status bodyText) parseJson).response
        = upstreamErrorResponse status bodyText (parseJson bodyText) := by
    simp [post, postTry, isEmpty_false_of_ne hkey, hf, hst]
  refine ⟨?_, ?_, ?_, ?_⟩
  · rw [hpost]; exact upstreamErrorResponse_status status bodyText _
  · intro e he
    rw [hpost, he]; rfl
  · rintro (he | he) <;> rw [hpost, he] <;> rfl
  · intro v hv hnull hundef
    rw [hpost, hv]
    cases v with
    | null => exact absurd rfl hnull
    | undefined => exact absurd rfl hundef
    | bool b =>
      simp only [upstreamErrorResponse, getFieldE, getField]
      split_ifs <;> rfl
    | num n =>
      simp only [upstreamErrorResponse, getFieldE, getField]
      split_ifs <;> rfl
    | str s =>
      simp only [upstreamErrorResponse, getFieldE, getField]
      split_ifs <;> rfl
    | arr xs =>
      simp only [upstreamErrorResponse, getFieldE, getField]
      split_ifs <;> rfl
    | obj fields =>
      simp only [upstreamErrorResponse, getFieldE, getField]
      split_ifs <;> rfl

/-- Witness for C2 at the spec's own example: body `{error: "bad audio"}`
with status 422. -/
theorem upstream_error_propagation_witness :
    (post (some "key") sampleRequest (.ok 422 "body")
          (constParse (.obj [("error", .str "bad audio")]))).response.status
        = 422 ∧
      (∀ e, constParse (.obj [("error", .str "bad audio")]) "body" = .error e →
        (post (some "key") sampleRequest (.ok 422 "body")
            (constParse (.obj [("error", .str "bad audio")]))).response.body
          = .obj [("error", .str ("Deepgram API error: " ++ "body"))]) ∧
      (constParse (.obj [("error", .str "bad audio")]) "body" = .ok .null ∨
          constParse (.obj [("error", .str "bad audio")]) "body" = .ok .undefined →
        (post (some "key") sampleRequest (.ok 422 "body")
            (constParse (.obj [("error", .str "bad audio")]))).response.body
          = .obj [("error", .str ("Deepgram API error: " ++ "body"))]) ∧
      (∀ v, constParse (.obj [("error", .str "bad audio")]) "body" = .ok v →
          v ≠ .null → v ≠ .undefined →
        (post (some "key") sampleRequest (.ok 422 "body")
            (constParse (.obj [("error", .str "bad audio")]))).response.body
          = (if truthy (getField v "error") then .obj [("error", getField v "error")]
             else if truthy (getField v "message") then
               .obj [("error", getField v "message")]
             else .obj [("error", .str "Deepgram API error")])) :=
  upstream_error_propagation "key" (by decide) sampleFile (by decide) 422
    "body" (constParse (.obj [("error", .str "bad audio")])) (by decide)

/-- Counterexample to C2 as stated: the provider body `"null"` parses as
JSON (to `null`), yet the handler does not take the parsed-object branch —
reading `.error` on `null` throws, and the raw-embed message
`Deepgram API error: null` is returned instead of the generic
`Deepgram API error` the stated precedence would give. -/
theorem upstream_null_body_counterexample :
    constParse .null "null" = .ok .null ∧
      (post (some "key") sampleRequest (.ok 400 "null")
          (constParse .null)).response
        = ⟨400, .obj [("error", .str "Deepgram API error: null")]⟩ ∧
      ("Deepgram API error: null" : String) ≠ "Deepgram API error" := by
  refine ⟨rfl, rfl, by decide⟩

/-- C7: whenever the body of the `try` block throws, the handler catches the
fault and answers with a structured 500 JSON error whose message is the
fault's `message` when that is truthy and a stringified form of the fault
otherwise; no fault escapes without a structured result. -/
theorem fault_caught_structured (env : Option String) (req : TranscribeRequest)
    (fetched : FetchOutcome) (parseJson : String → Except JsError JSValue)
    (e : JsError)
    (h : (postTry env req fetched parseJson).1 = .error e) :
    (post env req fetched parseJson).response
        = ⟨500, .obj [("error", .str (catchMessage e))]⟩ ∧
      (∀ m, e.message = some m → m ≠ "" →
        catchMessage e = "Transcription failed: " ++ m) ∧
      (e.message = none ∨ e.message = some "" →
        catchMessage e = "An unknown error occurred: " ++ e.stringified) := by
  refine ⟨?_, ?_, ?_⟩
  · unfold post
    rcases hpt : postTry env req fetched parseJson with ⟨r, logs, out⟩
    rw [hpt] at h
    cases r with
    | ok v => exact absurd h (by simp)
    | error e₀ =>
      obtain rfl : e₀ = e := by simpa using h
      rfl
  · intro m hm hm'
    simp [catchMessage, hm, isEmpty_false_of_ne hm']
  · rintro (hm | hm) <;>
      simp [catchMessage, hm, show ("" : String).isEmpty = true from rfl]

/-- Witness for C7: a request whose multipart body rejects with a message. -/
theorem fault_caught_structured_witness :
    (post (some "key") ⟨.error ⟨some "boom", "Error: boom"⟩⟩ (.ok 200 "x")
          failParse).response
        = ⟨500, .obj [("error", .str (catchMessage ⟨some "boom", "Error: boom"⟩))]⟩ ∧
      (∀ m, (⟨some "boom", "Error: boom"⟩ : JsError).message = some m → m ≠ "" →
        catchMessage ⟨some "boom", "Error: boom"⟩ = "Transcription failed: " ++ m) ∧
      ((⟨some "boom", "Error: boom"⟩ : JsError).message = none ∨
          (⟨some "boom", "Error: boom"⟩ : JsError).message = some "" →
        catchMessage ⟨some "boom", "Error: boom"⟩
          = "An unknown error occurred: "
              ++ (⟨some "boom", "Error: boom"⟩ : JsError).stringified) :=
  fault_caught_structured (some "key") ⟨.error ⟨some "boom", "Error: boom"⟩⟩
    (.ok 200 "x") failParse ⟨some "boom", "Error: boom"⟩ rfl

/-- An audio submission whose payload is empty: the handler forwards it. -/
def emptyAudioFile : AudioFile :=
  ⟨"recording.webm", "audio/webm", []⟩

/-- Counterexample to C8 as stated: the handler never checks that the
payload is non-empty, so a submission with zero bytes and an `audio/*` MIME
type is forwarded upstream with an empty body. -/
theorem empty_payload_forwarded :
    (post (some "key") ⟨.ok (some emptyAudioFile)⟩ (.ok 200 "null")
          (constParse .null)).outbound
        = [outboundFor "key" emptyAudioFile] ∧
      (outboundFor "key" emptyAudioFile).body = [] :=
  ⟨rfl, rfl⟩

theorem postTry_outbound_characterization (env : Option String)
    (req : TranscribeRequest) (fetched : FetchOutcome)
    (parseJson : String → Except JsError JSValue) :
    (postTry env req fetched parseJson).2.2 = [] ∨
      ∃ key f, env = some key ∧ req.formData = .ok (some f) ∧
        strStartsWith f.type "audio/" = true ∧
        (postTry env req fetched parseJson).2.2 = [outboundFor key f] := by
  obtain ⟨fd⟩ := req
  cases env with
  | none => left; rfl
  | some key =>
    by_cases hk : key.isEmpty
    · left; simp [postTry, hk]
    · rcases fd with e | af
      · left; simp [postTry, hk]
      · rcases af with _ | f
        · left; simp [postTry, hk]
        · cases hf : strStartsWith f.type "audio/" with
          | false => left; simp [postTry, hk, hf]
          | true =>
            right
            refine ⟨key, f, rfl, rfl, hf, ?_⟩
            cases fetched with
            | err e => simp [postTry, hk, hf]
            | ok status bodyText =>
              by_cases hst : 200 ≤ status ∧ status < 300
              · rcases hpj : parseJson bodyText with e | data
                · simp [postTry, hk, hf, hst, hpj]
                · rcases hex : extractTranscript data with e | tv
                  · simp [postTry, hk, hf, hst, hpj, hex]
                  · cases htv : truthy tv <;>
                      simp [postTry, hk, hf, hst, hpj, hex, htv, truthy_str_empty]
              · simp [postTry, hk, hf, hst]

/-- C8 (amended): every submission the handler forwards upstream has a
declared MIME type starting with `audio/` (the payload, however, may be
empty: the code enforces no non-emptiness check). -/
theorem forwarded_submission_mime (env : Option String)
    (req : TranscribeRequest) (fetched : FetchOutcome)
    (parseJson : String → Except JsError JSValue) (o : OutboundRequest)
    (h : o ∈ (post env req fetched parseJson).outbound) :
    strStartsWith o.contentType "audio/" = true := by
  have hout : (post env req fetched parseJson).outbound
      = (postTry env req fetched parseJson).2.2 := by
    unfold post
    rcases hpt : postTry env req fetched parseJson with ⟨r, logs, out⟩
    cases r <;> rfl
  rw [hout] at h
  rcases postTry_outbound_characterization env req fetched parseJson with
    hempty | ⟨key, f, _, _, hf, hsingle⟩
  · rw [hempty] at h
    exact absurd h (List.not_mem_nil o)
  · rw [hsingle] at h
    obtain rfl : o = outboundFor key f := by simpa using h
    exact hf

/-- Witness for C8 (amended) at a concrete forwarded request. -/
theorem forwarded_submission_mime_witness :
    strStartsWith (outboundFor "key" sampleFile).contentType "audio/" = true :=
  forwarded_submission_mime (some "key") sampleRequest (.ok 422 "oops")
    failParse (outboundFor "key" sampleFile) (by decide)

/-- C9: the credential value influences neither the logs nor the
caller-visible response — two runs on the same request and the same provider
behaviour that differ only in the (non-empty) credential produce identical
logs and identical responses.  (The credential flows only into the
Authorization header of the outbound request; the logged header line uses
the masked placeholder.) -/
theorem credential_noninterference (req : TranscribeRequest)
    (fetched : FetchOutcome) (parseJson : String → Except JsError JSValue)
    (k₁ k₂ : String) (h₁ : k₁ ≠ "") (h₂ : k₂ ≠ "") :
    (post (some k₁) req fetched parseJson).response
        = (post (some k₂) req fetched parseJson).response ∧
      (post (some k₁) req fetched parseJson).logs
        = (post (some k₂) req fetched parseJson).logs := by
  obtain ⟨fd⟩ := req
  have hk₁ := isEmpty_false_of_ne h₁
  have hk₂ := isEmpty_false_of_ne h₂
  rcases fd with e | af
  · constructor <;> simp [post, postTry, hk₁, hk₂]
  · rcases af with _ | f
    · constructor <;> simp [post, postTry, hk₁, hk₂]
    · cases hf : strStartsWith f.type "audio/" with
      | false => constructor <;> simp [post, postTry, hk₁, hk₂, hf]
      | true =>
        cases fetched with
        | err e => constructor <;> simp [post, postTry, hk₁, hk₂, hf]
        | ok status bodyText =>
          by_cases hst : 200 ≤ status ∧ status < 300
          · rcases hpj : parseJson bodyText with e | data
            · constructor <;> simp [post, postTry, hk₁, hk₂, hf, hst, hpj]
            · rcases hex : extractTranscript data with e | tv
              · constructor <;> simp [post, postTry, hk₁, hk₂, hf, hst, hpj, hex]
              · cases htv : truthy tv <;> constructor <;>
                  simp [post, postTry, hk₁, hk₂, hf, hst, hpj, hex, htv,
                    truthy_str_empty]
          · constructor <;> simp [post, postTry, hk₁, hk₂, hf, hst]

/-- Witness for C9 with two distinct concrete credentials. -/
theorem credential_noninterference_witness :
    (post (some "alpha") sampleRequest (.ok 200 "body")
          (constParse (singleTranscriptBody "hi"))).response
        = (post (some "beta") sampleRequest (.ok 200 "body")
            (constParse (singleTranscriptBody "hi"))).response ∧
      (post (some "alpha") sampleRequest (.ok 200 "body")
          (constParse (singleTranscriptBody "hi"))).logs
        = (post (some "beta") sampleRequest (.ok 200 "body")
            (constParse (singleTranscriptBody "hi"))).logs :=
  credential_noninterference sampleRequest (.ok 200 "body")
    (constParse (singleTranscriptBody "hi")) "alpha" "beta"
    (by decide) (by decide)

/-- C10: when the multipart body cannot be parsed (the `formData()` promise
rejects with a message-bearing fault), a configured relay answers with the
top-level 500 `Transcription failed: ...` result, not a 400 validation
result. -/
theorem formdata_failure_server_error (env : Option String)
    (hc : credentialConfigured env = true) (e : JsError) (m : String)
    (hm : e.message = some m) (hm' : m ≠ "") (fetched : FetchOutcome)
    (parseJson : String → Except JsError JSValue) :
    (post env ⟨.error e⟩ fetched parseJson).response
      = ⟨500, .obj [("error", .str ("Transcription failed: " ++ m))]⟩ := by
  cases env with
  | none => simp [credentialConfigured] at hc
  | some k =>
    have hk : k.isEmpty = false := by simpa [credentialConfigured] using hc
    simp [post, postTry, hk, catchResponse, catchMessage, hm,
      isEmpty_false_of_ne hm', errorResponse]

/-- Witness for C10: a form-data rejection with its runtime message. -/
theorem formdata_failure_server_error_witness :
    (post (some "key") ⟨.error ⟨some "Could not parse content as FormData", "E"⟩⟩
          (.ok 200 "x") failParse).response
      = ⟨500, .obj [("error",
          .str ("Transcription failed: " ++ "Could not parse content as FormData"))]⟩ :=
  formdata_failure_server_error (some "key") rfl
    ⟨some "Could not parse content as FormData", "E"⟩
    "Could not parse content as FormData" rfl (by decide) (.ok 200 "x") failParse
